import Mathlib

set_option maxRecDepth 8000

/-!
# Verification of the Flagship targeting/rule-evaluation core

Shallow embedding of the feature-flag targeting engine:
* `Dashboard` embeds `src/apps/dashboard/lib/targeting.ts` (module-internal
  `hashString`, `isInRollout`, `evaluateCondition`, plus the exported
  `evaluateTargeting`).
* `TargetingLib` embeds `src/unnamed/part_005`, the exported targeting module
  whose API (`hashString`, `isInRollout`, `evaluateCondition`,
  `evaluateTargeting`) is the one imported by the dashboard test suite as
  `@/lib/targeting`.

Modelling conventions:
* JavaScript values flowing through `any`-typed fields are modelled by the
  inductive `JsValue`; numbers are modelled as integers (`Int`), which covers
  every value the evaluation core manipulates arithmetically (char codes,
  32-bit hash accumulators, rollout percentages, bucket indices).
* JavaScript 32-bit signed wraparound (`<< 5`, `& hash`) is made explicit with
  `toInt32`, i.e. reduction modulo `2 ^ 32` into `[-2 ^ 31, 2 ^ 31)`.
* The two sources of randomness are passed as explicit parameters:
  `rands : Nat → Fin 100` supplies the value of
  `Math.floor(Math.random() * 100)` drawn while scanning rule `i`, and
  `anonSuffix : String` supplies the decimal tail of the synthetic
  `anon-${Math.random()}` identifier used by the default-rule fallback.
* Strings are iterated by code points (`String.data`); on the flag keys and
  user ids at issue this coincides with JavaScript's UTF-16 `charCodeAt`.
-/

/-- A JavaScript runtime value, restricted to the shapes the targeting engine
manipulates. Arrays are structural here; JavaScript compares arrays by
reference, so `jsStrictEq` deems two arrays distinct. -/
inductive JsValue where
  | str : String → JsValue
  | num : Int → JsValue
  | bool : Bool → JsValue
  | arr : List JsValue → JsValue
  | undefined : JsValue
  | null : JsValue

/-- JavaScript strict equality `===` on the modelled values. Two distinct
array literals are never reference-equal, hence `arr`/`arr` is `false`. -/
def jsStrictEq : JsValue → JsValue → Bool
  | .str a, .str b => a == b
  | .num a, .num b => a == b
  | .bool a, .bool b => a == b
  | .undefined, .undefined => true
  | .null, .null => true
  | _, _ => false

mutual
/-- JavaScript `String(v)` conversion on the modelled values. -/
def jsToString : JsValue → String
  | .str s => s
  | .num n => toString n
  | .bool b => bif b then "true" else "false"
  | .undefined => "undefined"
  | .null => "null"
  | .arr vs => String.intercalate "," (jsElemsToString vs)

/-- `Array.prototype.toString` renders `undefined`/`null` elements as `""`. -/
def jsElemsToString : List JsValue → List String
  | [] => []
  | .undefined :: vs => "" :: jsElemsToString vs
  | .null :: vs => "" :: jsElemsToString vs
  | v :: vs => jsToString v :: jsElemsToString vs
end

/-- JavaScript `Number(string)`: trimmed empty string is `0`, optionally
signed digit strings parse as integers, everything else is `NaN` (`none`).
(Fractional, hex and exponent literals are outside the model; the evaluation
core never produces them.) -/
def parseJsNumberStr (s : String) : Option Int :=
  let t := s.trim
  if t = "" then some 0
  else if t.startsWith "-" then ((t.drop 1).toNat?).map (fun n => -(n : Int))
  else if t.startsWith "+" then ((t.drop 1).toNat?).map (fun n => (n : Int))
  else (t.toNat?).map (fun n => (n : Int))

/-- JavaScript `Number(v)` coercion; `none` models `NaN`. -/
def jsToNumber : JsValue → Option Int
  | .num n => some n
  | .bool b => some (bif b then 1 else 0)
  | .null => some 0
  | .undefined => none
  | .str s => parseJsNumberStr s
  | .arr vs => parseJsNumberStr (jsToString (.arr vs))

/-- `Array.prototype.includes` (SameValueZero; no `NaN` in the model, so it
agrees with `===`). -/
def jsIncludes (vs : List JsValue) (x : JsValue) : Bool :=
  vs.any (fun v => jsStrictEq v x)

/-- Does `hay` contain `needle` as a contiguous substring of its character
list? Models `String.prototype.includes`. -/
def charListHasSub (needle : List Char) : List Char → Bool
  | [] => needle.isEmpty
  | h :: t => needle.isPrefixOf (h :: t) || charListHasSub needle t

/-- JavaScript `s.trim()` (structural, by character list; Lean's
`Char.isWhitespace` stands in for the ECMAScript WhiteSpace class). -/
def jsTrim (s : String) : String :=
  String.mk (((s.data.dropWhile Char.isWhitespace).reverse.dropWhile
    Char.isWhitespace).reverse)

/-- JavaScript `s.split(',')` (structural, by character list): `""` yields
`[""]`, separators at the ends yield empty pieces, exactly as in JS. -/
def splitCommaAux : List Char → List Char → List String
  | [], acc => [String.mk acc.reverse]
  | c :: rest, acc =>
    if c = ',' then String.mk acc.reverse :: splitCommaAux rest []
    else splitCommaAux rest (c :: acc)

/-- JavaScript `s.split(',')`. -/
def jsSplitComma (s : String) : List String :=
  splitCommaAux s.data []

/-- JavaScript `hay.includes(needle)`. -/
def strIncludes (hay needle : String) : Bool :=
  charListHasSub needle.data hay.data

/-- Reduce an integer into the signed 32-bit range `[-2 ^ 31, 2 ^ 31)`,
the effect of JavaScript's `| 0` / `& hash` / shift operators. -/
def toInt32 (n : Int) : Int :=
  (n + 2 ^ 31) % 2 ^ 32 - 2 ^ 31

/-- The comparison operators of a targeting condition
(`'eq' | 'ne' | 'contains' | 'in' | 'gt' | 'lt' | 'gte' | 'lte'`).
`in` is a Lean keyword, hence the constructor name `isIn`. -/
inductive Operator where
  | eq | ne | contains | isIn | gt | lt | gte | lte

/-- `TargetingCondition`: one comparison test. The source field `attribute`
is a Lean keyword and is rendered `attr`. -/
structure TargetingCondition where
  attr : String
  operator : Operator
  value : JsValue

/-- `TargetingRule`: conditions (AND logic) plus a rollout gate and outcome. -/
structure TargetingRule where
  id : String
  description : String
  conditions : List TargetingCondition
  rolloutPercentage : Int
  value : JsValue
  enabled : Bool

/-- The `defaultRule` fallback of a targeting configuration. -/
structure DefaultRule where
  rolloutPercentage : Int
  value : JsValue

/-- `Targeting`: full targeting configuration for one flag. -/
structure Targeting where
  enabled : Bool
  rules : List TargetingRule
  defaultRule : DefaultRule

/-- `UserContext`: optional stable id and optional attribute map (modelled as
an association list, first binding wins as in a JS object literal lookup). -/
structure UserContext where
  id : Option String
  attributes : Option (List (String × JsValue))

/-- `user.attributes?.[name]`: `undefined` when the map is absent or the key
is missing. -/
def lookupAttr (user : UserContext) (name : String) : JsValue :=
  match user.attributes with
  | none => .undefined
  | some m =>
    match m.lookup name with
    | some v => v
    | none => .undefined

/-- JavaScript falsiness of `user.id` (`!user.id`): `undefined` or `""`. -/
def userIdFalsy (user : UserContext) : Bool :=
  match user.id with
  | none => true
  | some s => s == ""

/-- The identifier the default-rule fallback hashes:
`const userId = user.id || `anon-${Math.random()}``. A present, truthy id is
used as-is; an absent or empty id is replaced by the synthetic random
identifier `"anon-" ++ anonSuffix`. -/
def effectiveUserId (user : UserContext) (anonSuffix : String) : String :=
  match user.id with
  | some s => if s == "" then "anon-" ++ anonSuffix else s
  | none => "anon-" ++ anonSuffix

/-- `{enabled, value}` result of `evaluateTargeting`. -/
structure EvalResult where
  enabled : Bool
  value : JsValue

/-- `{matches, value}` result of `evaluateRule`; the source field name
`matches` is a Lean keyword and is rendered `matched`. -/
structure RuleResult where
  matched : Bool
  value : JsValue

namespace Dashboard

/-- `hashString` from `src/apps/dashboard/lib/targeting.ts` (lines 32-40):
the rolling hash `hash = (hash << 5) - hash + char; hash = hash & hash` over
the char codes, returning `Math.abs(hash)` — the RAW 32-bit magnitude, not
yet reduced mod 100. -/
def hashString (s : String) : Nat :=
  (s.data.foldl
    (fun hash c => toInt32 (toInt32 (hash * 2 ^ 5) - hash + (c.toNat : Int)))
    0).natAbs

/-- `isInRollout` from `src/apps/dashboard/lib/targeting.ts` (lines 43-52):
special-cases 0 and 100, then buckets `hash(`${flagKey}:${userId}`) % 100`
and tests `bucket < percentage`. -/
def isInRollout (userId flagKey : String) (percentage : Int) : Bool :=
  if percentage = 0 then false
  else if percentage = 100 then true
  else
    let combinedStr := flagKey ++ ":" ++ userId
    let hash := hashString combinedStr
    let bucket := hash % 100
    decide ((bucket : Int) < percentage)

/-- `evaluateCondition` from `src/apps/dashboard/lib/targeting.ts`
(lines 55-90), the module-internal `(condition, user)` form. Note the `in`
case accepts only arrays (`Array.isArray(condition.value) &&
condition.value.includes(userValue)`). -/
def evaluateCondition (condition : TargetingCondition) (user : UserContext) : Bool :=
  let userValue := lookupAttr user condition.attr
  if jsStrictEq userValue .undefined then false
  else
    match condition.operator with
    | .eq => jsStrictEq userValue condition.value
    | .ne => !jsStrictEq userValue condition.value
    | .contains => strIncludes (jsToString userValue) (jsToString condition.value)
    | .isIn =>
      match condition.value with
      | .arr vs => jsIncludes vs userValue
      | _ => false
    | .gt =>
      match jsToNumber userValue, jsToNumber condition.value with
      | some a, some b => decide (a > b)
      | _, _ => false
    | .lt =>
      match jsToNumber userValue, jsToNumber condition.value with
      | some a, some b => decide (a < b)
      | _, _ => false
    | .gte =>
      match jsToNumber userValue, jsToNumber condition.value with
      | some a, some b => decide (a ≥ b)
      | _, _ => false
    | .lte =>
      match jsToNumber userValue, jsToNumber condition.value with
      | some a, some b => decide (a ≤ b)
      | _, _ => false

/-- `evaluateRule` from `src/apps/dashboard/lib/targeting.ts` (lines 93-122).
`rand` is the value `Math.floor(Math.random() * 100)` would produce if the
anonymous branch is reached. -/
def evaluateRule (rule : TargetingRule) (user : UserContext) (flagKey : String)
    (rand : Fin 100) : RuleResult :=
  if !rule.enabled then ⟨false, .undefined⟩
  else if !(rule.conditions.all fun condition => evaluateCondition condition user) then
    ⟨false, .undefined⟩
  else if userIdFalsy user then
    ⟨decide ((rand.val : Int) < rule.rolloutPercentage), rule.value⟩
  else
    ⟨isInRollout (user.id.getD "") flagKey rule.rolloutPercentage, rule.value⟩

/-- The `for (const rule of targeting.rules)` loop of `evaluateTargeting`:
first rule whose `evaluateRule` result matches wins; `i` indexes the random
draw for the current rule. -/
def runRules (user : UserContext) (flagKey : String) (rands : Nat → Fin 100) :
    List TargetingRule → Nat → Option JsValue
  | [], _ => none
  | rule :: rest, i =>
    let result := evaluateRule rule user flagKey (rands i)
    if result.matched then some result.value
    else runRules user flagKey rands rest (i + 1)

/-- `evaluateTargeting` from `src/apps/dashboard/lib/targeting.ts`
(lines 125-152). `rands` and `anonSuffix` are the externalized randomness:
`anon-${Math.random()}` becomes `"anon-" ++ anonSuffix`. -/
def evaluateTargeting (flagKey : String) (targeting : Option Targeting)
    (user : UserContext) (defaultValue : JsValue)
    (rands : Nat → Fin 100) (anonSuffix : String) : EvalResult :=
  match targeting with
  | none => ⟨true, defaultValue⟩
  | some t =>
    if !t.enabled then ⟨true, defaultValue⟩
    else
      match runRules user flagKey rands t.rules 0 with
      | some v => ⟨true, v⟩
      | none =>
        let userId := effectiveUserId user anonSuffix
        ⟨isInRollout userId flagKey t.defaultRule.rolloutPercentage,
         t.defaultRule.value⟩

end Dashboard

namespace TargetingLib

/-- `hashString` from `src/unnamed/part_005` (lines 32-40): same rolling hash
but the return is `Math.abs(hash) % 100`, already a bucket in `[0, 100)`. -/
def hashString (s : String) : Nat :=
  (s.data.foldl
    (fun hash c => toInt32 (toInt32 (hash * 2 ^ 5) - hash + (c.toNat : Int)))
    0).natAbs % 100

/-- `isInRollout` from `src/unnamed/part_005` (lines 43-51): the bucket is
`hashString(`${flagKey}:${userId}`)`, which is already reduced mod 100. -/
def isInRollout (userId flagKey : String) (percentage : Int) : Bool :=
  if percentage = 0 then false
  else if percentage = 100 then true
  else
    let combinedStr := flagKey ++ ":" ++ userId
    let bucket := hashString combinedStr
    decide ((bucket : Int) < percentage)

/-- `evaluateCondition` from `src/unnamed/part_005` (lines 54-95), the
exported `(userValue, operator, conditionValue)` form. Its `in` case accepts
an array, or a comma-separated string split on `","` and trimmed. -/
def evaluateCondition (userValue : JsValue) (operator : Operator)
    (conditionValue : JsValue) : Bool :=
  if jsStrictEq userValue .undefined then false
  else
    match operator with
    | .eq => jsStrictEq userValue conditionValue
    | .ne => !jsStrictEq userValue conditionValue
    | .contains => strIncludes (jsToString userValue) (jsToString conditionValue)
    | .isIn =>
      let values :=
        match conditionValue with
        | .arr vs => vs
        | cv => (jsSplitComma (jsToString cv)).map (fun v => JsValue.str (jsTrim v))
      jsIncludes values userValue
    | .gt =>
      match jsToNumber userValue, jsToNumber conditionValue with
      | some a, some b => decide (a > b)
      | _, _ => false
    | .lt =>
      match jsToNumber userValue, jsToNumber conditionValue with
      | some a, some b => decide (a < b)
      | _, _ => false
    | .gte =>
      match jsToNumber userValue, jsToNumber conditionValue with
      | some a, some b => decide (a ≥ b)
      | _, _ => false
    | .lte =>
      match jsToNumber userValue, jsToNumber conditionValue with
      | some a, some b => decide (a ≤ b)
      | _, _ => false

/-- `evaluateConditionWithUser` from `src/unnamed/part_005` (lines 98-101):
reads `user.attributes?.[condition.attribute]` and defers to
`evaluateCondition`. -/
def evaluateConditionWithUser (condition : TargetingCondition)
    (user : UserContext) : Bool :=
  evaluateCondition (lookupAttr user condition.attr) condition.operator
    condition.value

/-- `evaluateRule` from `src/unnamed/part_005` (lines 104-133). -/
def evaluateRule (rule : TargetingRule) (user : UserContext) (flagKey : String)
    (rand : Fin 100) : RuleResult :=
  if !rule.enabled then ⟨false, .undefined⟩
  else if !(rule.conditions.all fun condition =>
      evaluateConditionWithUser condition user) then
    ⟨false, .undefined⟩
  else if userIdFalsy user then
    ⟨decide ((rand.val : Int) < rule.rolloutPercentage), rule.value⟩
  else
    ⟨isInRollout (user.id.getD "") flagKey rule.rolloutPercentage, rule.value⟩

/-- The rule loop of `evaluateTargeting` from `src/unnamed/part_005`. -/
def runRules (user : UserContext) (flagKey : String) (rands : Nat → Fin 100) :
    List TargetingRule → Nat → Option JsValue
  | [], _ => none
  | rule :: rest, i =>
    let result := evaluateRule rule user flagKey (rands i)
    if result.matched then some result.value
    else runRules user flagKey rands rest (i + 1)

/-- `evaluateTargeting` from `src/unnamed/part_005` (lines 136-163). -/
def evaluateTargeting (flagKey : String) (targeting : Option Targeting)
    (user : UserContext) (defaultValue : JsValue)
    (rands : Nat → Fin 100) (anonSuffix : String) : EvalResult :=
  match targeting with
  | none => ⟨true, defaultValue⟩
  | some t =>
    if !t.enabled then ⟨true, defaultValue⟩
    else
      match runRules user flagKey rands t.rules 0 with
      | some v => ⟨true, v⟩
      | none =>
        let userId := effectiveUserId user anonSuffix
        ⟨isInRollout userId flagKey t.defaultRule.rolloutPercentage,
         t.defaultRule.value⟩

end TargetingLib

/-! ## Concrete configurations used to instantiate the theorems -/

/-- A targeting configuration whose master switch is off, but which carries a
rule that would match everyone and a default rule with a contrasting value. -/
def disabledMasterTargeting : Targeting :=
  ⟨false,
   [⟨"rule-1", "everyone", [], 100, JsValue.str "rule-value", true⟩],
   ⟨100, JsValue.str "default-rule-value"⟩⟩

/-- First cascade rule: premium users, 0% rollout. -/
def cascadeRule1 : TargetingRule :=
  ⟨"rule-1", "premium users", [⟨"plan", .eq, .str "premium"⟩], 0,
   .str "v1", true⟩

/-- Second cascade rule: Turkish users, 100% rollout. -/
def cascadeRule2 : TargetingRule :=
  ⟨"rule-2", "turkish users", [⟨"country", .eq, .str "TR"⟩], 100,
   .str "v2", true⟩

/-- Enabled targeting with the two cascade rules and a contrasting default. -/
def cascadeTargeting : Targeting :=
  ⟨true, [cascadeRule1, cascadeRule2], ⟨0, .str "default-rule-value"⟩⟩

/-- A user matching both cascade rules' conditions. -/
def cascadeUser : UserContext :=
  ⟨some "user-1", some [("plan", .str "premium"), ("country", .str "TR")]⟩

/-- A rule that is disabled, hence can never match. -/
def disabledRule : TargetingRule :=
  ⟨"rule-1", "switched off", [], 100, .str "rule-value", false⟩

/-- Enabled targeting whose single rule is disabled; the default rule has a
50% rollout and its own value. -/
def noMatchTargeting : Targeting :=
  ⟨true, [disabledRule], ⟨50, .str "fallback"⟩⟩

/-- A user with a stable, nonempty id and no attributes. -/
def idUser : UserContext := ⟨some "user-123", none⟩

/-- A user whose id field is present but the empty string. -/
def emptyIdUser : UserContext := ⟨some "", none⟩

/-- Enabled targeting with a single unconditional 50%-rollout rule and a 0%
default rule. -/
def halfRolloutTargeting : Targeting :=
  ⟨true, [⟨"rule-1", "half", [], 50, .str "on", true⟩], ⟨0, .str "off"⟩⟩

/-- A condition on an attribute (`country`) with the `ne` operator. -/
def neCountryCondition : TargetingCondition := ⟨"country", .ne, .str "TR"⟩

/-- A user whose attribute map exists but has no `country` key. -/
def planOnlyUser : UserContext := ⟨some "u1", some [("plan", JsValue.str "pro")]⟩

/-! ## Claim theorems -/

/-- C1: If targeting is `undefined` or `targeting.enabled` is false, both
`evaluateTargeting` implementations return `{enabled: true, value:
defaultValue}` for every flag key and user, regardless of the contents of
`targeting.rules` and `targeting.defaultRule` (and in particular not
`targeting.defaultRule.value`). -/
theorem targeting_disabled_bypass :
    (∀ (flagKey : String) (user : UserContext) (dv : JsValue)
        (rands : Nat → Fin 100) (anon : String),
      Dashboard.evaluateTargeting flagKey none user dv rands anon = ⟨true, dv⟩) ∧
    (∀ (flagKey : String) (t : Targeting) (user : UserContext) (dv : JsValue)
        (rands : Nat → Fin 100) (anon : String), t.enabled = false →
      Dashboard.evaluateTargeting flagKey (some t) user dv rands anon = ⟨true, dv⟩) ∧
    (∀ (flagKey : String) (user : UserContext) (dv : JsValue)
        (rands : Nat → Fin 100) (anon : String),
      TargetingLib.evaluateTargeting flagKey none user dv rands anon = ⟨true, dv⟩) ∧
    (∀ (flagKey : String) (t : Targeting) (user : UserContext) (dv : JsValue)
        (rands : Nat → Fin 100) (anon : String), t.enabled = false →
      TargetingLib.evaluateTargeting flagKey (some t) user dv rands anon = ⟨true, dv⟩) := by
  refine ⟨fun _ _ _ _ _ => rfl, fun fk t user dv rands anon h => ?_,
          fun _ _ _ _ _ => rfl, fun fk t user dv rands anon h => ?_⟩ <;>
    simp [Dashboard.evaluateTargeting, TargetingLib.evaluateTargeting, h]

/-- C1 witness: the disabled-master configuration (with a would-match rule and
contrasting default-rule value) is bypassed, returning the plain default. -/
theorem targeting_disabled_bypass_witness :
    Dashboard.evaluateTargeting "flag-a" (some disabledMasterTargeting)
      idUser (.str "plain-default") (fun _ => 0) "r" = ⟨true, .str "plain-default"⟩ ∧
    TargetingLib.evaluateTargeting "flag-a" (some disabledMasterTargeting)
      idUser (.str "plain-default") (fun _ => 0) "r" = ⟨true, .str "plain-default"⟩ :=
  ⟨targeting_disabled_bypass.2.1 "flag-a" disabledMasterTargeting idUser
     (.str "plain-default") (fun _ => 0) "r" rfl,
   targeting_disabled_bypass.2.2.2 "flag-a" disabledMasterTargeting idUser
     (.str "plain-default") (fun _ => 0) "r" rfl⟩

/-- C4: For every userId (including the empty string) and flagKey, both
`isInRollout` implementations return false for every percentage `p ≤ 0` and
true for every percentage `p ≥ 100`, not only at the exact values 0 and 100. -/
theorem isInRollout_boundary_percentages (u f : String) (p : Int) :
    (p ≤ 0 →
      Dashboard.isInRollout u f p = false ∧ TargetingLib.isInRollout u f p = false) ∧
    (100 ≤ p →
      Dashboard.isInRollout u f p = true ∧ TargetingLib.isInRollout u f p = true) := by
  have hd : Dashboard.hashString (f ++ ":" ++ u) % 100 < 100 :=
    Nat.mod_lt _ (by norm_num)
  have hl : TargetingLib.hashString (f ++ ":" ++ u) < 100 :=
    Nat.mod_lt _ (by norm_num)
  constructor
  · intro hp
    rcases eq_or_ne p 0 with h | h
    · constructor <;> simp [Dashboard.isInRollout, TargetingLib.isInRollout, h]
    · have h100 : p ≠ 100 := by omega
      constructor <;>
      · simp only [Dashboard.isInRollout, TargetingLib.isInRollout, if_neg h,
          if_neg h100, decide_eq_false_iff_not]
        omega
  · intro hp
    rcases eq_or_ne p 100 with h | h
    · constructor <;> simp [Dashboard.isInRollout, TargetingLib.isInRollout, h]
    · have h0 : p ≠ 0 := by omega
      constructor <;>
      · simp only [Dashboard.isInRollout, TargetingLib.isInRollout, if_neg h,
          if_neg h0, decide_eq_true_eq]
        omega

/-- C4 witness: concrete negative and above-100 percentages, with an empty
userId on the negative side. -/
theorem isInRollout_boundary_percentages_witness :
    Dashboard.isInRollout "" "flag-a" (-5) = false ∧
    TargetingLib.isInRollout "" "flag-a" (-5) = false ∧
    Dashboard.isInRollout "user-123" "flag-a" 150 = true ∧
    TargetingLib.isInRollout "user-123" "flag-a" 150 = true :=
  ⟨((isInRollout_boundary_percentages "" "flag-a" (-5)).1 (by norm_num)).1,
   ((isInRollout_boundary_percentages "" "flag-a" (-5)).1 (by norm_num)).2,
   ((isInRollout_boundary_percentages "user-123" "flag-a" 150).2 (by norm_num)).1,
   ((isInRollout_boundary_percentages "user-123" "flag-a" 150).2 (by norm_num)).2⟩

/-- C6: The exported hash function (`hashString` of the targeting library
module, the one the dashboard test suite imports) is total and returns an
integer in `[0, 100)` for every input string, with `hashString "" = 0`.
Determinism across calls (end-to-end scenario D on `"test-user-123"`) is
purity of the definition; the golden bucket value 73 is pinned so that the
"identical integer both times" is a fixed, reproducible constant. -/
theorem hashString_contract :
    (∀ s : String, TargetingLib.hashString s < 100) ∧
    TargetingLib.hashString "" = 0 ∧
    TargetingLib.hashString "test-user-123" = 73 :=
  ⟨fun _ => Nat.mod_lt _ (by norm_num), rfl, by decide⟩

/-- C7: The exported `evaluateCondition`'s `in` operator accepts the
condition value either as an array (membership among its elements) or as a
single comma-separated string (split on `","`, trimmed, membership among the
pieces); concretely `"TR,US,UK"` matches user value `"TR"` and not `"DE"`. -/
theorem in_operator_array_or_csv :
    (∀ (userValue : JsValue) (vs : List JsValue),
      TargetingLib.evaluateCondition userValue .isIn (.arr vs) =
        (!jsStrictEq userValue .undefined && jsIncludes vs userValue)) ∧
    (∀ (userValue : JsValue) (s : String),
      TargetingLib.evaluateCondition userValue .isIn (.str s) =
        (!jsStrictEq userValue .undefined &&
          jsIncludes ((jsSplitComma s).map (fun v => JsValue.str (jsTrim v))) userValue)) ∧
    TargetingLib.evaluateCondition (.str "TR") .isIn (.str "TR,US,UK") = true ∧
    TargetingLib.evaluateCondition (.str "DE") .isIn (.str "TR,US,UK") = false := by
  refine ⟨fun uv vs => ?_, fun uv s => ?_, by decide, by decide⟩ <;>
  · cases h : jsStrictEq uv .undefined <;>
      simp [TargetingLib.evaluateCondition, h, jsToString]

/-- C8: If the attribute named by a condition is absent — the attribute map
itself missing, or the key unbound in it — condition evaluation returns false
for every operator (including `ne`), in the dashboard-internal form, in the
exported with-user form, and in the exported raw form on an undefined user
value. -/
theorem absent_attribute_never_matches (c : TargetingCondition)
    (user : UserContext)
    (h : user.attributes = none ∨
      ∃ m, user.attributes = some m ∧ m.lookup c.attr = none) :
    Dashboard.evaluateCondition c user = false ∧
    TargetingLib.evaluateConditionWithUser c user = false ∧
    (∀ (op : Operator) (cv : JsValue),
      TargetingLib.evaluateCondition .undefined op cv = false) := by
  have hu : lookupAttr user c.attr = .undefined := by
    rcases h with h | ⟨m, hm, hl⟩ <;> simp [lookupAttr, *]
  refine ⟨?_, ?_, fun _ _ => rfl⟩
  · simp [Dashboard.evaluateCondition, hu, jsStrictEq]
  · simp [TargetingLib.evaluateConditionWithUser, TargetingLib.evaluateCondition,
      hu, jsStrictEq]

/-- C8 witness: a `ne` condition on `country` against a user whose map binds
only `plan` evaluates to false in both forms. -/
theorem absent_attribute_never_matches_witness :
    Dashboard.evaluateCondition neCountryCondition planOnlyUser = false ∧
    TargetingLib.evaluateConditionWithUser neCountryCondition planOnlyUser = false := by
  have h := absent_attribute_never_matches neCountryCondition planOnlyUser
    (Or.inr ⟨_, rfl, rfl⟩)
  exact ⟨h.1, h.2.1⟩

/-- The library `hashString` is the dashboard `hashString` reduced mod 100:
the two rolling-hash loops are identical, the implementations differ only in
where `% 100` is applied. -/
theorem lib_hashString_eq_dashboard_mod (s : String) :
    TargetingLib.hashString s = Dashboard.hashString s % 100 := rfl

/-- C9: The two rollout implementations are extensionally equal: for every
userId, flagKey and percentage, the dashboard `isInRollout` (mod-100 of a raw
hash taken inside `isInRollout`) and the library `isInRollout` (whose
`hashString` already returns a bucket in `[0, 100)`) agree. -/
theorem isInRollout_implementations_agree (userId flagKey : String) (p : Int) :
    Dashboard.isInRollout userId flagKey p = TargetingLib.isInRollout userId flagKey p := by
  simp only [Dashboard.isInRollout, TargetingLib.isInRollout,
    lib_hashString_eq_dashboard_mod]

/-- C2: An enabled rule whose conditions all match but whose rollout gate
excludes the user is treated as non-matching and evaluation cascades to the
next rule: with two enabled rules whose conditions both match for a user with
an id, the first at 0% rollout and the second at 100%, `evaluateTargeting`
returns the second rule's value, not the default. -/
theorem cascade_on_rollout_miss (flagKey : String) (t : Targeting)
    (r₁ r₂ : TargetingRule) (user : UserContext) (uid : String) (dv : JsValue)
    (rands : Nat → Fin 100) (anon : String)
    (_hid : user.id = some uid)
    (ht : t.enabled = true) (hrules : t.rules = [r₁, r₂])
    (h₁e : r₁.enabled = true) (h₂e : r₂.enabled = true)
    (h₁c : (r₁.conditions.all fun c => Dashboard.evaluateCondition c user) = true)
    (h₂c : (r₂.conditions.all fun c => Dashboard.evaluateCondition c user) = true)
    (h₁p : r₁.rolloutPercentage = 0) (h₂p : r₂.rolloutPercentage = 100) :
    Dashboard.evaluateTargeting flagKey (some t) user dv rands anon =
      ⟨true, r₂.value⟩ := by
  have hrule1 : ∀ b : Fin 100,
      (Dashboard.evaluateRule r₁ user flagKey b).matched = false := by
    intro b
    cases hf : userIdFalsy user
    · simp [Dashboard.evaluateRule, h₁e, h₁c, h₁p, hf, Dashboard.isInRollout]
    · simp only [Dashboard.evaluateRule, h₁e, h₁c, h₁p, hf, Bool.not_true,
        Bool.false_eq_true, if_false, if_true, decide_eq_false_iff_not]
      omega
  have hrule2m : ∀ b : Fin 100,
      (Dashboard.evaluateRule r₂ user flagKey b).matched = true := by
    intro b
    cases hf : userIdFalsy user
    · simp [Dashboard.evaluateRule, h₂e, h₂c, h₂p, hf, Dashboard.isInRollout]
    · simp only [Dashboard.evaluateRule, h₂e, h₂c, h₂p, hf, Bool.not_true,
        Bool.false_eq_true, if_false, if_true, decide_eq_true_eq]
      have := b.isLt
      omega
  have hrule2v : ∀ b : Fin 100,
      (Dashboard.evaluateRule r₂ user flagKey b).value = r₂.value := by
    intro b
    cases hf : userIdFalsy user <;>
      simp [Dashboard.evaluateRule, h₂e, h₂c, h₂p, hf]
  have hrun : Dashboard.runRules user flagKey rands [r₁, r₂] 0 = some r₂.value := by
    simp [Dashboard.runRules, hrule1, hrule2m, hrule2v]
  simp [Dashboard.evaluateTargeting, ht, hrules, hrun]

/-- C2 witness: premium-plan rule at 0% then Turkey rule at 100%, a user
matching both; evaluation returns the second rule's value `"v2"`. -/
theorem cascade_on_rollout_miss_witness :
    Dashboard.evaluateTargeting "test-flag" (some cascadeTargeting) cascadeUser
      (.bool false) (fun _ => 0) "r" = ⟨true, .str "v2"⟩ :=
  cascade_on_rollout_miss "test-flag" cascadeTargeting cascadeRule1 cascadeRule2
    cascadeUser "user-1" (.bool false) (fun _ => 0) "r"
    rfl rfl rfl rfl rfl (by decide) (by decide) rfl rfl

/-- Helper: if every rule in the list fails to match at every random draw,
the dashboard rule loop yields nothing, from any draw index. -/
theorem dashboard_runRules_none (user : UserContext) (flagKey : String)
    (rands : Nat → Fin 100) (rules : List TargetingRule) :
    ∀ i : Nat,
      (∀ r ∈ rules, ∀ b : Fin 100,
        (Dashboard.evaluateRule r user flagKey b).matched = false) →
      Dashboard.runRules user flagKey rands rules i = none := by
  induction rules with
  | nil => intro i _; rfl
  | cons r rest ih =>
    intro i h
    have hr := h r (List.mem_cons_self r rest) (rands i)
    simp only [Dashboard.runRules, hr, Bool.false_eq_true, if_false]
    exact ih (i + 1) (fun r' hr' b => h r' (List.mem_cons_of_mem _ hr') b)

/-- Helper: the same for the library rule loop. -/
theorem lib_runRules_none (user : UserContext) (flagKey : String)
    (rands : Nat → Fin 100) (rules : List TargetingRule) :
    ∀ i : Nat,
      (∀ r ∈ rules, ∀ b : Fin 100,
        (TargetingLib.evaluateRule r user flagKey b).matched = false) →
      TargetingLib.runRules user flagKey rands rules i = none := by
  induction rules with
  | nil => intro i _; rfl
  | cons r rest ih =>
    intro i h
    have hr := h r (List.mem_cons_self r rest) (rands i)
    simp only [TargetingLib.runRules, hr, Bool.false_eq_true, if_false]
    exact ih (i + 1) (fun r' hr' b => h r' (List.mem_cons_of_mem _ hr') b)

/-- C3: With targeting enabled, if no rule matches (disabled, failing
condition, or missed rollout bucket), both implementations return
`{enabled: b, value: targeting.defaultRule.value}` where
`b = isInRollout(effectiveUserId, flagKey, defaultRule.rolloutPercentage)` —
the value is the default rule's value even when `b` is false, never the
caller-supplied defaultValue. -/
theorem no_match_defaultRule_fallback (flagKey : String) (t : Targeting)
    (user : UserContext) (dv : JsValue) (rands : Nat → Fin 100) (anon : String)
    (ht : t.enabled = true)
    (hD : ∀ r ∈ t.rules, ∀ b : Fin 100,
      (Dashboard.evaluateRule r user flagKey b).matched = false)
    (hL : ∀ r ∈ t.rules, ∀ b : Fin 100,
      (TargetingLib.evaluateRule r user flagKey b).matched = false) :
    Dashboard.evaluateTargeting flagKey (some t) user dv rands anon =
      ⟨Dashboard.isInRollout (effectiveUserId user anon) flagKey
         t.defaultRule.rolloutPercentage, t.defaultRule.value⟩ ∧
    TargetingLib.evaluateTargeting flagKey (some t) user dv rands anon =
      ⟨TargetingLib.isInRollout (effectiveUserId user anon) flagKey
         t.defaultRule.rolloutPercentage, t.defaultRule.value⟩ := by
  have h1 := dashboard_runRules_none user flagKey rands t.rules 0 hD
  have h2 := lib_runRules_none user flagKey rands t.rules 0 hL
  constructor <;>
    simp [Dashboard.evaluateTargeting, TargetingLib.evaluateTargeting, ht, h1, h2]

/-- C3 witness: a single disabled rule, a 50% default rule, user `user-123`
on flag `test-flag` (whose bucket is 99, outside 50%): the result is
`{enabled: false, value: "fallback"}` — the default rule's value with its
rollout verdict, not the caller default `"plain"`. -/
theorem no_match_defaultRule_fallback_witness :
    Dashboard.evaluateTargeting "test-flag" (some noMatchTargeting) idUser
      (.str "plain") (fun _ => 0) "r" = ⟨false, .str "fallback"⟩ ∧
    TargetingLib.evaluateTargeting "test-flag" (some noMatchTargeting) idUser
      (.str "plain") (fun _ => 0) "r" = ⟨false, .str "fallback"⟩ := by
  have h := no_match_defaultRule_fallback "test-flag" noMatchTargeting idUser
    (.str "plain") (fun _ => 0) "r" rfl (by decide) (by decide)
  exact ⟨h.1.trans rfl, h.2.trans rfl⟩

/-- C5 (amended): evaluation is deterministic whenever the user supplies a
nonempty id: the result of `evaluateTargeting` does not depend on either
randomness source (the per-rule random buckets or the synthetic anonymous
identifier), so two calls with the same arguments agree. `isInRollout` itself
is a pure function of its arguments, so its determinism is definitional. -/
theorem evaluateTargeting_deterministic (flagKey : String)
    (t : Option Targeting) (user : UserContext) (dv : JsValue) (s : String)
    (r₁ r₂ : Nat → Fin 100) (a₁ a₂ : String)
    (hid : user.id = some s) (hs : s ≠ "") :
    Dashboard.evaluateTargeting flagKey t user dv r₁ a₁ =
    Dashboard.evaluateTargeting flagKey t user dv r₂ a₂ := by
  have hfal : userIdFalsy user = false := by
    simp only [userIdFalsy, hid, beq_eq_false_iff_ne, ne_eq]
    exact hs
  have heq : ∀ (rule : TargetingRule) (b b' : Fin 100),
      Dashboard.evaluateRule rule user flagKey b =
      Dashboard.evaluateRule rule user flagKey b' := by
    intro rule b b'
    simp [Dashboard.evaluateRule, hfal]
  have hrun : ∀ (rules : List TargetingRule) (i j : Nat),
      Dashboard.runRules user flagKey r₁ rules i =
      Dashboard.runRules user flagKey r₂ rules j := by
    intro rules
    induction rules with
    | nil => intro i j; rfl
    | cons r rest ih =>
      intro i j
      simp only [Dashboard.runRules]
      rw [heq r (r₁ i) (r₂ j), ih (i + 1) (j + 1)]
  have hanon : effectiveUserId user a₁ = effectiveUserId user a₂ := by
    simp only [effectiveUserId, hid]
    rw [if_neg (by simpa using hs)]
    rw [if_neg (by simpa using hs)]
  cases t with
  | none => rfl
  | some tg =>
    simp only [Dashboard.evaluateTargeting]
    rw [hrun tg.rules 0 0, hanon]

/-- C5 counterexample: the claim fails when the id field is present but
empty. With a single unconditional 50%-rollout rule, a user whose id is `""`
takes the anonymous random path: the draw 0 matches the rule
(`{enabled: true, value: "on"}`) while the draw 99 misses it and falls to the
0% default rule (`{enabled: false, value: "off"}`), so two calls with the
same flag, targeting, user and default value disagree. -/
theorem evaluateTargeting_empty_id_not_deterministic :
    Dashboard.evaluateTargeting "test-flag" (some halfRolloutTargeting)
      emptyIdUser (.str "dv") (fun _ => 0) "x" ≠
    Dashboard.evaluateTargeting "test-flag" (some halfRolloutTargeting)
      emptyIdUser (.str "dv") (fun _ => 99) "x" := by
  intro h
  exact absurd (congrArg EvalResult.enabled h) (by decide)

/-- C5 witness: for the nonempty id `user-123` the same configuration gives
the same result under both randomness instantiations. -/
theorem evaluateTargeting_deterministic_witness :
    Dashboard.evaluateTargeting "test-flag" (some halfRolloutTargeting) idUser
      (.str "dv") (fun _ => 0) "x" =
    Dashboard.evaluateTargeting "test-flag" (some halfRolloutTargeting) idUser
      (.str "dv") (fun _ => 99) "y" :=
  evaluateTargeting_deterministic "test-flag" (some halfRolloutTargeting)
    idUser (.str "dv") "user-123" (fun _ => 0) (fun _ => 99) "x" "y" rfl
    (by decide)

/-- C10: A user context whose id is the empty string is treated like an
absent id: the `!user.id` / `user.id || ...` guards send `id = ""` down the
anonymous path, so rule evaluation and full evaluation coincide with those
for `id = undefined` (under the same random draws), and for a rule whose
rollout percentage is strictly between 0 and 100 with matching conditions,
the inclusion decision follows the per-call random bucket (draw 0 is
included, draw 99 is not) rather than any deterministic hash of the id. -/
theorem empty_id_takes_anonymous_path :
    (∀ (rule : TargetingRule) (attrs : Option (List (String × JsValue)))
        (flagKey : String) (b : Fin 100),
      Dashboard.evaluateRule rule ⟨some "", attrs⟩ flagKey b =
      Dashboard.evaluateRule rule ⟨none, attrs⟩ flagKey b) ∧
    (∀ (rule : TargetingRule) (attrs : Option (List (String × JsValue)))
        (flagKey : String) (b : Fin 100),
      TargetingLib.evaluateRule rule ⟨some "", attrs⟩ flagKey b =
      TargetingLib.evaluateRule rule ⟨none, attrs⟩ flagKey b) ∧
    (∀ (flagKey : String) (t : Option Targeting)
        (attrs : Option (List (String × JsValue))) (dv : JsValue)
        (rands : Nat → Fin 100) (anon : String),
      Dashboard.evaluateTargeting flagKey t ⟨some "", attrs⟩ dv rands anon =
      Dashboard.evaluateTargeting flagKey t ⟨none, attrs⟩ dv rands anon) ∧
    (∀ (p : Int) (v : JsValue) (attrs : Option (List (String × JsValue)))
        (flagKey : String), 0 < p → p < 100 →
      (Dashboard.evaluateRule ⟨"r", "", [], p, v, true⟩ ⟨some "", attrs⟩
        flagKey 0).matched = true ∧
      (Dashboard.evaluateRule ⟨"r", "", [], p, v, true⟩ ⟨some "", attrs⟩
        flagKey 99).matched = false) := by
  refine ⟨fun rule attrs flagKey b => rfl, fun rule attrs flagKey b => rfl,
          fun flagKey t attrs dv rands anon => ?_, fun p v attrs flagKey hp hq => ?_⟩
  · have hrule : ∀ (rule : TargetingRule) (b : Fin 100),
        Dashboard.evaluateRule rule ⟨some "", attrs⟩ flagKey b =
        Dashboard.evaluateRule rule ⟨none, attrs⟩ flagKey b := fun rule b => rfl
    have hrun : ∀ (rules : List TargetingRule) (i : Nat),
        Dashboard.runRules ⟨some "", attrs⟩ flagKey rands rules i =
        Dashboard.runRules ⟨none, attrs⟩ flagKey rands rules i := by
      intro rules
      induction rules with
      | nil => intro i; rfl
      | cons r rest ih =>
        intro i
        simp only [Dashboard.runRules]
        rw [hrule r (rands i), ih (i + 1)]
    have heff : effectiveUserId ⟨some "", attrs⟩ anon =
        effectiveUserId ⟨none, attrs⟩ anon := rfl
    cases t with
    | none => rfl
    | some tg =>
      simp only [Dashboard.evaluateTargeting]
      rw [hrun tg.rules 0, heff]
  · have h0 : (0 : Fin 100).val = 0 := rfl
    have h99 : (99 : Fin 100).val = 99 := rfl
    constructor <;>
    · simp only [Dashboard.evaluateRule, userIdFalsy, List.all_nil, Bool.not_true,
        Bool.false_eq_true, if_false, if_true, beq_self_eq_true,
        decide_eq_true_eq, decide_eq_false_iff_not, h0, h99]
      omega

/-- C10 witness: at 50% rollout the empty-id user's inclusion flips with the
random draw, and rule evaluation agrees with the absent-id form. -/
theorem empty_id_takes_anonymous_path_witness :
    (Dashboard.evaluateRule ⟨"r", "", [], 50, .str "on", true⟩ emptyIdUser
      "test-flag" 0).matched = true ∧
    (Dashboard.evaluateRule ⟨"r", "", [], 50, .str "on", true⟩ emptyIdUser
      "test-flag" 99).matched = false :=
  empty_id_takes_anonymous_path.2.2.2 50 (.str "on") none "test-flag"
    (by norm_num) (by norm_num)
